import Mathlib

/-!
Shallow embedding of `src/app.py` (Image-and-Video-Compressor).

The embedding models the request/validation/dispatch logic, the job store
update sequences performed by the video worker, the work queue, the API-key
check and the streaming progress observer.  External collaborators (PIL,
ffmpeg, Cloudinary, Redis, the uuid generator) are represented at their
interface boundary: their outcomes are oracle parameters, and Redis writes
are recorded as an explicit list of store operations in program order.
Machine strings and byte contents are Lean `String` / `List Nat`.
-/

/-! ### Byte streams (werkzeug `FileStorage.stream`) -/

/-- A seekable byte stream: the full byte content plus the current position.
`read()` returns the bytes from `pos` to the end; `seek n` sets `pos := n`. -/
structure PyStream where
  data : List Nat
  pos : Nat
deriving Repr, DecidableEq

/-! ### Character-level string helpers

Python's `str.startswith`, `'.' in s`, and `str.lower` are modelled over the
underlying character list (for `lower`, the ASCII case mapping, which is all
the extension comparison needs). -/

/-- `listStartsWith pat s` holds when `pat` is a leading run of `s`
(Python `s.startswith(pat)` on sequences). -/
def listStartsWith {α : Type} [BEq α] : List α → List α → Bool
  | [], _ => true
  | a :: as, s =>
    match s with
    | [] => false
    | b :: bs => a == b && listStartsWith as bs

/-- `s.startswith(p)`. -/
def pyStartsWith (s p : String) : Bool :=
  listStartsWith p.data s.data

/-- `c in s` for a single character. -/
def pyContainsChar (s : String) (c : Char) : Bool :=
  s.data.contains c

def asciiLowerChar (c : Char) : Char :=
  if c.isUpper then Char.ofNat (c.toNat + 32) else c

/-- `s.lower()` (ASCII fragment). -/
def pyLower (s : String) : String :=
  String.mk (s.data.map asciiLowerChar)

/-! ### Content classifier (`validate_file_content`, app.py lines 70-100) -/

/-- The `magic_numbers` dict literal of app.py lines 77-90, in the iteration
order of the resulting Python dict.  The source text writes the key `b'RIFF'`
twice — first with value `'image/webp'`, then with value `'video/avi'`.
Python dict-literal semantics keep one entry at the first key's position with
the *last* value, so the effective table maps `RIFF` to `video/avi` only. -/
def magic_numbers : List (List Nat × String) :=
  [ ([0xFF, 0xD8, 0xFF], "image/jpeg"),
    ([0x89, 0x50, 0x4E, 0x47, 0x0D, 0x0A, 0x1A, 0x0A], "image/png"),
    ([0x47, 0x49, 0x46, 0x38, 0x37, 0x61], "image/gif"),
    ([0x47, 0x49, 0x46, 0x38, 0x39, 0x61], "image/gif"),
    ([0x52, 0x49, 0x46, 0x46], "video/avi"),
    ([0x00, 0x00, 0x00, 0x18, 0x66, 0x74, 0x79, 0x70, 0x6D, 0x70, 0x34, 0x32], "video/mp4"),
    ([0x00, 0x00, 0x00, 0x1C, 0x66, 0x74, 0x79, 0x70, 0x69, 0x73, 0x6F, 0x6D], "video/mp4"),
    ([0x00, 0x00, 0x00, 0x20, 0x66, 0x74, 0x79, 0x70], "video/mp4") ]

/-- `validate_file_content(file_stream, claimed_type)` (app.py lines 70-100).
Reads the stream from its current position, scans the signature table in
order, and on a match compares the signature's image/video category with the
claimed category; with no match it trusts the extension and returns `True`.
Every return path has executed `file_stream.seek(0)`, so the resulting stream
is always the same data at position `0`.  `claimed_type` is the value of
`get_file_type` (`'image'`, `'video'`, or Python `None`). -/
def validate_file_content (s : PyStream) (claimed_type : Option String) :
    Bool × PyStream :=
  let content := s.data.drop s.pos
  let verdict :=
    match magic_numbers.find? (fun sig => listStartsWith sig.1 content) with
    | some (_, mime_type) =>
        some (if pyStartsWith mime_type "image" then "image" else "video") == claimed_type
    | none => true
  (verdict, ⟨s.data, 0⟩)

/-! ### Extension allow-list (app.py lines 36-38, 57-68) -/

def ALLOWED_IMAGE_EXTENSIONS : List String := ["jpg", "jpeg", "png", "gif", "webp"]

def ALLOWED_VIDEO_EXTENSIONS : List String := ["mp4", "mov", "avi", "mkv", "webm"]

def ALLOWED_EXTENSIONS : List String :=
  ALLOWED_IMAGE_EXTENSIONS ++ ALLOWED_VIDEO_EXTENSIONS

/-- `filename.rsplit('.', 1)[1]`: the substring after the last dot, or `none`
when the name has no dot at all (Python would raise `IndexError` on the
one-element list that `rsplit` returns in that case). -/
def rsplit_ext (filename : String) : Option String :=
  if pyContainsChar filename '.' then
    some (String.mk (((filename.data.reverse).takeWhile (fun c => c ≠ '.')).reverse))
  else none

/-- `allowed_file(filename)` (app.py lines 57-59). -/
def allowed_file (filename : String) : Bool :=
  match rsplit_ext filename with
  | some e => ALLOWED_EXTENSIONS.contains (pyLower e)
  | none => false

/-- `get_file_type(filename)` (app.py lines 61-68).  `Except.error ()` models
the `IndexError` Python raises when the name contains no dot. -/
def get_file_type (filename : String) : Except Unit (Option String) :=
  match rsplit_ext filename with
  | none => Except.error ()
  | some e =>
    let ext := pyLower e
    if ALLOWED_IMAGE_EXTENSIONS.contains ext then Except.ok (some "image")
    else if ALLOWED_VIDEO_EXTENSIONS.contains ext then Except.ok (some "video")
    else Except.ok none

/-! ### `secure_filename` (werkzeug, external collaborator)

Modelled at the interface from werkzeug's implementation for ASCII input:
replace the path separator by a space, split on whitespace and join the words
with underscores, drop every character outside `[A-Za-z0-9_.-]`, and strip
leading/trailing dots and underscores.  (The NFKD/ASCII-encode step of the
original only affects non-ASCII input.) -/

def isPythonSpace (c : Char) : Bool :=
  c = ' ' || c = '\t' || c = '\n' || c = '\r' || c = '\x0b' || c = '\x0c'

def isWerkzeugSafe (c : Char) : Bool :=
  c.isAlpha || c.isDigit || c = '_' || c = '.' || c = '-'

def splitWordsAux : List Char → List Char → List (List Char)
  | [], acc => if acc.isEmpty then [] else [acc.reverse]
  | c :: cs, acc =>
    if isPythonSpace c then
      if acc.isEmpty then splitWordsAux cs [] else acc.reverse :: splitWordsAux cs []
    else splitWordsAux cs (c :: acc)

def splitWords (cs : List Char) : List (List Char) := splitWordsAux cs []

def stripDotUnderscore (cs : List Char) : List Char :=
  ((cs.dropWhile (fun c => c = '.' || c = '_')).reverse.dropWhile
      (fun c => c = '.' || c = '_')).reverse

def secure_filename (f : String) : String :=
  let replaced := f.data.map (fun c => if c = '/' then ' ' else c)
  let joined := List.intercalate ['_'] (splitWords replaced)
  String.mk (stripDotUnderscore (joined.filter isWerkzeugSafe))

/-! ### Work queue (`queue.Queue`, app.py lines 41 and 413-417)

Python's `queue.Queue(maxsize)` blocks a default `put` while the queue holds
`maxsize` items, provided `maxsize > 0`; with `maxsize = 0` (the default used
at app.py line 41) the queue is unbounded and `put` always appends. -/

/-- The message placed on `video_processing_queue` (app.py lines 413-417). -/
structure WorkItem where
  job_id : String
  file_path : String
  original_filename : String
deriving Repr, DecidableEq

structure PyQueue (α : Type) where
  maxsize : Nat
  items : List α
deriving Repr, DecidableEq

inductive PutOutcome (α : Type) where
  | enqueued (q : PyQueue α) : PutOutcome α
  | blocked : PutOutcome α
deriving Repr, DecidableEq

/-- A queue is full exactly when a positive `maxsize` has been reached. -/
def PyQueue.isFull {α : Type} (q : PyQueue α) : Bool :=
  decide (0 < q.maxsize) && decide (q.maxsize ≤ q.items.length)

/-- `Queue.put(item)` with the default blocking behaviour: append unless the
queue is full, in which case the caller blocks. -/
def PyQueue.put {α : Type} (q : PyQueue α) (x : α) : PutOutcome α :=
  if q.isFull then PutOutcome.blocked
  else PutOutcome.enqueued ⟨q.maxsize, q.items ++ [x]⟩

/-- `video_processing_queue = queue.Queue()` (app.py line 41): default
`maxsize = 0`, i.e. no capacity bound, starting empty. -/
def video_processing_queue : PyQueue WorkItem := ⟨0, []⟩

/-- Perform a sequence of `put` calls, reporting `none` if any of them would
block. -/
def putMany {α : Type} (q : PyQueue α) : List α → Option (PyQueue α)
  | [] => some q
  | x :: xs =>
    match q.put x with
    | PutOutcome.blocked => none
    | PutOutcome.enqueued q1 => putMany q1 xs

/-! ### Job store operations (Redis writes)

Each Redis call made by the program is recorded as one `StoreOp`:
`update fields` is a single `hset` (one pair) or `hmset` (several pairs)
applied atomically, `expire ttl` schedules reclamation.  A job record is the
fold of its operations; a later write of a field overrides an earlier one. -/

inductive StoreOp where
  | update (fields : List (String × String)) : StoreOp
  | expire (ttl : Nat) : StoreOp
deriving Repr, DecidableEq

/-- The field map obtained after applying a sequence of store operations. -/
def applyOps (ops : List StoreOp) : List (String × String) :=
  ops.foldl (fun r op =>
    match op with
    | StoreOp.update fields => r ++ fields
    | StoreOp.expire _ => r) []

/-- Read a field of a record: the most recent write wins. -/
def recGet (r : List (String × String)) (k : String) : Option String :=
  r.reverse.lookup k

def recHas (r : List (String × String)) (k : String) : Bool :=
  (recGet r k).isSome

/-- The result/error field invariant of the spec: the result fields
(`cloudinary_url`, `public_id`) are present iff `status = completed`, and
`error` is present iff `status = failed`. -/
def invariantHolds (r : List (String × String)) : Bool :=
  ((recHas r "cloudinary_url" && recHas r "public_id")
      == (recGet r "status" == some "completed")) &&
  (recHas r "error" == (recGet r "status" == some "failed"))

/-- The invariant checked after every individual store write, i.e. on every
prefix of the operation sequence (including the empty prefix). -/
def invariantAllInstants (ops : List StoreOp) : Bool :=
  (List.range (ops.length + 1)).all
    (fun n => invariantHolds (applyOps (ops.take n)))

/-- Position of a status value in the lifecycle ordering
`queued < processing < uploading < completed|failed`. -/
def statusRank : String → Nat
  | "queued" => 0
  | "processing" => 1
  | "uploading" => 2
  | "completed" => 3
  | "failed" => 3
  | _ => 4

/-- The sequence of `status` values carried by the store writes, in program
order. -/
def statusTrace (ops : List StoreOp) : List String :=
  ops.filterMap (fun op =>
    match op with
    | StoreOp.update fields => fields.lookup "status"
    | StoreOp.expire _ => none)

/-! ### The video worker (`process_video_job`, app.py lines 227-290) -/

/-- Outcomes of the two external collaborator calls made while processing one
job: `compressOk` is the boolean returned by `compress_video` (which catches
its own exceptions, app.py lines 217-225), and `upload` is the Cloudinary
call, which returns `(secure_url, public_id)` or raises. -/
structure WorkerOracle where
  compressOk : Bool
  upload : Except String (String × String)

structure WorkerResult where
  ops : List StoreOp
  sourceExists : Bool
  compressedExists : Bool
deriving Repr, DecidableEq

def exceptFailed {ε α : Type} : Except ε α → Bool
  | Except.error _ => true
  | Except.ok _ => false

/-- `process_video_job(job_id, file_path, original_filename)` (app.py lines
227-290), tracked as the sequence of Redis operations it performs plus the
final existence of the two temporary artifacts.  Control flow of the source:

* `hset status=processing`; create the compressed temp file; run ffmpeg;
  `os.unlink(file_path)` unconditionally;
* on compression failure: unlink the compressed file, then `hset
  status=failed` and `hset error=...` as two separate single-field writes,
  and return without `expire`;
* otherwise `hset status=uploading`, upload; on success unlink the compressed
  file, `hmset` the completed record in one call, `expire 86400`;
* an exception raised by the upload jumps to the handler (app.py lines
  284-290), which performs `hmset {status=failed, error=str(e)}` and
  `expire 86400` — the unlink of the compressed file at line 265 is skipped,
  so that artifact remains on disk. -/
def process_video_job (original_filename : String) (o : WorkerOracle) :
    WorkerResult :=
  let processingOp := StoreOp.update [("status", "processing")]
  if o.compressOk = false then
    { ops := [processingOp,
              StoreOp.update [("status", "failed")],
              StoreOp.update [("error", "Video compression failed")]],
      sourceExists := false,
      compressedExists := false }
  else
    match o.upload with
    | Except.error e =>
      { ops := [processingOp,
                StoreOp.update [("status", "uploading")],
                StoreOp.update [("status", "failed"), ("error", e)],
                StoreOp.expire 86400],
        sourceExists := false,
        compressedExists := true }
    | Except.ok (url, pid) =>
      { ops := [processingOp,
                StoreOp.update [("status", "uploading")],
                StoreOp.update [("status", "completed"),
                                ("message", "Video compressed and uploaded successfully"),
                                ("original_filename", original_filename),
                                ("cloudinary_url", url),
                                ("public_id", pid),
                                ("completed_at", "now")],
                StoreOp.expire 86400],
        sourceExists := false,
        compressedExists := false }

/-- The `hmset` performed by the dispatcher when a video job is admitted
(app.py lines 404-410). -/
def queuedJobOp (job_id original_filename : String) : StoreOp :=
  StoreOp.update [("job_id", job_id), ("status", "queued"),
                  ("original_filename", original_filename),
                  ("created_at", "now")]

/-- All store operations performed on one job over its lifetime: the
dispatcher's `queued` record followed by the worker's writes. -/
def jobLifecycleOps (job_id original_filename : String) (o : WorkerOracle) :
    List StoreOp :=
  queuedJobOp job_id original_filename :: (process_video_job original_filename o).ops

/-! ### The dispatcher (`upload_and_compress`, app.py lines 337-431) -/

/-- An incoming multipart request: `none` when the request has no `file`
part, otherwise the claimed file name and the raw bytes. -/
structure UploadRequest where
  file : Option (String × List Nat)

/-- Outcomes of the collaborators used by the dispatcher: `compress` is
`compress_image` (`None` on failure), `upload` the Cloudinary image upload
(result or exception), `job_id` the generated uuid for the video path. -/
structure ImageOracle where
  compress : Option (List Nat)
  upload : Except String (String × String)
  job_id : String

structure HttpResponse where
  code : Nat
  body : String
deriving Repr, DecidableEq

structure DispatchResult where
  response : HttpResponse
  jobOps : List StoreOp
  queued : Option WorkItem
  uploadAttempted : Bool
  tempSaved : Bool
deriving Repr, DecidableEq

def noEffects (resp : HttpResponse) : DispatchResult :=
  ⟨resp, [], none, false, false⟩

/-- `upload_and_compress` (app.py lines 337-431), after the API-key check.
`body` is the message of the `jsonify` branch taken.  An `IndexError` from
`get_file_type` at line 360 (filename without a dot after `secure_filename`)
escapes the handler and becomes a framework 500. -/
def upload_and_compress (o : ImageOracle) (req : UploadRequest) :
    DispatchResult :=
  match req.file with
  | none => noEffects ⟨400, "No file part in the request"⟩
  | some (rawName, content) =>
    if rawName = "" then noEffects ⟨400, "No selected file"⟩
    else if allowed_file rawName = false then
      noEffects ⟨400, "Unsupported file type"⟩
    else
      let filename := secure_filename rawName
      match get_file_type filename with
      | Except.error _ => noEffects ⟨500, "Internal Server Error"⟩
      | Except.ok resource_type =>
        if (validate_file_content ⟨content, 0⟩ resource_type).1 = false then
          noEffects ⟨400, "File content doesn't match its extension"⟩
        else if resource_type = some "image" then
          match o.compress with
          | none => noEffects ⟨500, "Failed to compress image"⟩
          | some _ =>
            match o.upload with
            | Except.error _ =>
              ⟨⟨500, "An internal server error occurred"⟩, [], none, true, false⟩
            | Except.ok _ =>
              ⟨⟨200, "Image compressed and uploaded successfully"⟩, [], none, true, false⟩
        else if resource_type = some "video" then
          ⟨⟨202, "Video compression job created"⟩,
           [queuedJobOp o.job_id filename],
           some ⟨o.job_id, "temp_input_path", filename⟩,
           false, true⟩
        else noEffects ⟨500, "Something went wrong"⟩

/-! ### API-key middleware (`require_api_key`, app.py lines 315-323) -/

/-- `require_api_key` — returns `true` when the request passes the check.
`envApiKey` is the value of the `API_KEY` environment variable (`none` when
unset; `os.environ.get` then yields `'default_dev_key'`), `header` the
`X-API-Key` request header (`none` when absent).  Python's `not api_key` is
true both for a missing header and for an empty-string header. -/
def require_api_key (envApiKey : Option String) (header : Option String) : Bool :=
  let expected := envApiKey.getD "default_dev_key"
  match header with
  | none => false
  | some k => (k != "") && (k == expected)

/-! ### Streaming progress observer (`stream_job_progress`, app.py 453-489) -/

inductive SSEFrame where
  | data (record : List (String × String)) : SSEFrame
  | err (msg : String) : SSEFrame
deriving Repr, DecidableEq

/-- One iteration structure of the `generate()` polling loop: `sample t` is
the `hgetall` result at the t-th poll (`none` when the hash is empty, i.e.
the job is unknown or expired); `last` is `last_status`; the fuel counts the
remaining iterations out of `max_retries`.  Exhausted fuel corresponds to the
loop condition failing, after which the timeout frame is emitted. -/
def streamGenAux (sample : Nat → Option (List (String × String)))
    (last : Option String) (tick : Nat) : Nat → List SSEFrame
  | 0 => [SSEFrame.err "Timeout waiting for job completion"]
  | fuel + 1 =>
    match sample tick with
    | none => [SSEFrame.err "Job not found"]
    | some record =>
      let status := record.lookup "status"
      let frames := if status ≠ last then [SSEFrame.data record] else []
      if status = some "completed" ∨ status = some "failed" then frames
      else frames ++ streamGenAux sample status (tick + 1) fuel

/-- The full frame sequence produced by `generate()` for one subscription:
`last_status = None`, `retry_count = 0`, `max_retries = 600`. -/
def stream_job_progress (sample : Nat → Option (List (String × String))) :
    List SSEFrame :=
  streamGenAux sample none 0 600

/-! ## Concrete inputs used by witnesses and counterexamples -/

def sampleWorkItem : WorkItem := ⟨"job-0", "path-0", "clip0.mp4"⟩

/-- A RIFF container carrying the WEBP fourcc, as produced for any real
`.webp` image: `RIFF`, a chunk size, then `WEBP`. -/
def webpRiffBytes : List Nat :=
  [0x52, 0x49, 0x46, 0x46, 0x24, 0x00, 0x00, 0x00, 0x57, 0x45, 0x42, 0x50]

def jpegMagicBytes : List Nat := [0xFF, 0xD8, 0xFF]

/-! ## Helper lemmas -/

/-- When the queue has no capacity bound, a run of `put` calls never blocks
and simply appends all the items. -/
theorem putMany_unbounded {α : Type} :
    ∀ (xs : List α) (items : List α),
      putMany (⟨0, items⟩ : PyQueue α) xs = some ⟨0, items ++ xs⟩ := by
  intro xs
  induction xs with
  | nil => intro items; simp [putMany]
  | cons x xs ih =>
    intro items
    have hput : (⟨0, items⟩ : PyQueue α).put x =
        PutOutcome.enqueued ⟨0, items ++ [x]⟩ := by
      simp [PyQueue.put, PyQueue.isFull]
    simp [putMany, hput, ih]

/-- One unfolding step of the polling loop while iterations remain. -/
theorem streamGenAux_succ (sample : Nat → Option (List (String × String)))
    (last : Option String) (tick fuel : Nat) :
    streamGenAux sample last tick (fuel + 1) =
      match sample tick with
      | none => [SSEFrame.err "Job not found"]
      | some record =>
        let status := record.lookup "status"
        let frames := if status ≠ last then [SSEFrame.data record] else []
        if status = some "completed" ∨ status = some "failed" then frames
        else frames ++ streamGenAux sample status (tick + 1) fuel := rfl

/-! ## Claims -/

/-- C1, counterexample: a submission named `x.png` whose content begins with
the JPEG magic signature is accepted and fully processed (HTTP 200), not
rejected with the 400 content-mismatch error the claim requires. -/
theorem C1_png_jpeg_accepted_ce :
    (upload_and_compress ⟨some [1], Except.ok ("u", "p"), "job-1"⟩
        ⟨some ("x.png", jpegMagicBytes)⟩).response =
      ⟨200, "Image compressed and uploaded successfully"⟩ := rfl

/-- C1, amended: a `.png`-named submission with JPEG leading bytes passes
content validation — the JPEG signature implies the category `image`, which
matches the category claimed by the `.png` suffix, and the classifier only
compares categories — so the request is never answered with the 400
content-mismatch error; it proceeds to image processing (200 on success, 500
on a processing failure). -/
theorem C1_png_jpeg_not_content_mismatch (rest : List Nat) (o : ImageOracle) :
    (validate_file_content ⟨jpegMagicBytes ++ rest, 0⟩ (some "image")).1 = true ∧
    ((upload_and_compress o ⟨some ("x.png", jpegMagicBytes ++ rest)⟩).response.code = 200 ∨
     (upload_and_compress o ⟨some ("x.png", jpegMagicBytes ++ rest)⟩).response.code = 500) := by
  refine ⟨rfl, ?_⟩
  rcases o with ⟨c, u, j⟩
  cases c with
  | none => exact Or.inr rfl
  | some buf =>
    cases u with
    | error e => exact Or.inr rfl
    | ok r => exact Or.inl rfl

/-- C2, counterexample: the work queue is created with `maxsize = 0` and one
hundred consecutive enqueue attempts all succeed immediately, growing the
queue to depth 100 — there is no configured bound at which an enqueue blocks
or fails. -/
theorem C2_queue_unbounded_growth_ce :
    video_processing_queue.maxsize = 0 ∧
    (putMany video_processing_queue (List.replicate 100 sampleWorkItem)).map
        (fun q => q.items.length) = some 100 := by
  refine ⟨rfl, ?_⟩
  show (putMany (⟨0, []⟩ : PyQueue WorkItem) (List.replicate 100 sampleWorkItem)).map
      (fun q => q.items.length) = some 100
  rw [putMany_unbounded]
  simp

/-- C2, amended: the work queue is unbounded — `queue.Queue()` is constructed
with `maxsize = 0`, so every enqueue attempt succeeds immediately by
appending the item, never blocking and never reporting a capacity error, and
the queue depth can exceed any fixed bound. -/
theorem C2_put_never_blocks (q : PyQueue WorkItem) (x : WorkItem)
    (h : q.maxsize = 0) :
    q.put x = PutOutcome.enqueued ⟨0, q.items ++ [x]⟩ := by
  unfold PyQueue.put PyQueue.isFull
  rw [h]
  simp

/-- C2 witness: the program's queue itself accepts an item without blocking. -/
theorem C2_put_never_blocks_witness :
    video_processing_queue.put sampleWorkItem =
      PutOutcome.enqueued ⟨0, [sampleWorkItem]⟩ :=
  C2_put_never_blocks video_processing_queue sampleWorkItem rfl

/-- C5: evaluation at the failing input.  A stream whose leading bytes are
the RIFF/WEBP header, submitted as `clip.webp` (claimed category image), is
classified `video/avi` — the dict literal's duplicate `b'RIFF'` key made
`'video/avi'` silently overwrite the `'image/webp'` entry, contradicting the
code's own comment — and the request is rejected with the 400
content-mismatch error instead of being accepted. -/
theorem C5_webp_riff_rejected :
    (validate_file_content ⟨webpRiffBytes, 0⟩ (some "image")).1 = false ∧
    (upload_and_compress ⟨none, Except.error "unused", "job-5"⟩
        ⟨some ("clip.webp", webpRiffBytes)⟩).response =
      ⟨400, "File content doesn't match its extension"⟩ :=
  ⟨rfl, rfl⟩

/-- C9, counterexample: calling content validation on a stream positioned at
offset 5 leaves the stream at offset 0, not at the offset it had when
validation was called. -/
theorem C9_position_reset_ce :
    ((validate_file_content ⟨[0, 1, 2, 3, 4, 5, 6], 5⟩ (some "image")).2.pos = 0) ∧
    (((validate_file_content ⟨[0, 1, 2, 3, 4, 5, 6], 5⟩ (some "image")).2.pos == 5)
      = false) :=
  ⟨rfl, rfl⟩

/-- C9, amended: whatever its verdict, content validation always returns the
stream repositioned to offset 0 with its data untouched; the caller's
position is therefore preserved exactly when it was 0 at the call — as it is
for every request the endpoint handles — but a stream at a nonzero offset is
rewound to 0, not to its original offset. -/
theorem C9_seek_zero_amended (s : PyStream) (t : Option String) :
    (validate_file_content s t).2 = ⟨s.data, 0⟩ := rfl

/-- C10: with the `API_KEY` environment variable unset, the literal header
value `default_dev_key` passes the check, and a request is rejected exactly
when the `X-API-Key` header is missing or differs from that default
credential. -/
theorem C10_default_key_auth :
    require_api_key none (some "default_dev_key") = true ∧
    ∀ header : Option String,
      require_api_key none header = false ↔
        (header = none ∨ header ≠ some "default_dev_key") := by
  refine ⟨rfl, ?_⟩
  intro header
  cases header with
  | none => simp [require_api_key]
  | some k =>
    by_cases hk : k = "default_dev_key"
    · subst hk
      show true = false ↔ _
      simp
    · simp [require_api_key, hk]

def compressFailOracle : WorkerOracle := ⟨false, Except.ok ("u", "p")⟩

/-- C3, counterexample: on the compression-failure path the worker writes
`status=failed` and `error` as two separate single-field updates, so at the
observation instant after the third store write (the `status=failed` `hset`)
the record has `status = failed` with no `error` field — the result/error
iff-invariant does not hold after every individual store write. -/
theorem C3_torn_failed_write_ce :
    invariantAllInstants (jobLifecycleOps "job-3" "v.mp4" compressFailOracle) = false ∧
    invariantHolds
        (applyOps ((jobLifecycleOps "job-3" "v.mp4" compressFailOracle).take 3)) = false :=
  ⟨rfl, rfl⟩

/-- C3, amended: the result fields are present iff `status = completed` and
`error` is present iff `status = failed` hold at the end of every lifecycle
(the `completed`+result and exception-path `failed`+`error` pairs are each
written in one atomic `hmset`), and they hold after every individual write
whenever the transcode step succeeds; only the compression-failure path
splits `status=failed` and `error` into two separate updates, creating one
intermediate instant at which `status = failed` with `error` absent. -/
theorem C3_invariant_amended (job_id fn : String) (o : WorkerOracle) :
    invariantHolds (applyOps (jobLifecycleOps job_id fn o)) = true ∧
    (o.compressOk = true →
      invariantAllInstants (jobLifecycleOps job_id fn o) = true) := by
  rcases o with ⟨ck, up⟩
  cases ck with
  | false => exact ⟨rfl, fun h => Bool.noConfusion h⟩
  | true =>
    cases up with
    | error e => exact ⟨rfl, fun _ => rfl⟩
    | ok p =>
      obtain ⟨url, pid⟩ := p
      exact ⟨rfl, fun _ => rfl⟩

/-- C3 witness: a successful job satisfies the invariant at every instant. -/
theorem C3_invariant_amended_witness :
    invariantHolds
        (applyOps (jobLifecycleOps "job-w" "v.mp4" ⟨true, Except.ok ("u", "p")⟩)) = true ∧
    invariantAllInstants (jobLifecycleOps "job-w" "v.mp4" ⟨true, Except.ok ("u", "p")⟩)
      = true :=
  ⟨(C3_invariant_amended "job-w" "v.mp4" ⟨true, Except.ok ("u", "p")⟩).1,
   (C3_invariant_amended "job-w" "v.mp4" ⟨true, Except.ok ("u", "p")⟩).2 rfl⟩

def uploadRaisesOracle : WorkerOracle := ⟨true, Except.error "Upload request failed"⟩

/-- C4, counterexample: when the transcode step succeeds and the upload step
concludes by raising, the job reaches the terminal state `failed` while the
transcoded temporary artifact still exists on local storage — the `unlink` of
that artifact (app.py line 265) is skipped because the exception jumps to the
handler at line 284. -/
theorem C4_upload_exception_leak_ce :
    (process_video_job "clip.mp4" uploadRaisesOracle).compressedExists = true ∧
    recGet (applyOps (jobLifecycleOps "job-4" "clip.mp4" uploadRaisesOracle)) "status" =
      some "failed" :=
  ⟨rfl, rfl⟩

/-- C4, amended: the original source artifact is always deleted once the
transcode step has concluded, and the transcoded artifact is deleted when the
upload returns (and on the transcode-failure path); but when the upload
raises, the transcoded artifact survives the job's terminal state handling:
after termination it exists exactly when the transcode succeeded and the
upload failed. -/
theorem C4_artifact_cleanup_amended (fn : String) (o : WorkerOracle) :
    (process_video_job fn o).sourceExists = false ∧
    (process_video_job fn o).compressedExists =
      (o.compressOk && exceptFailed o.upload) := by
  rcases o with ⟨ck, up⟩
  cases ck with
  | false =>
    cases up with
    | error e => exact ⟨rfl, rfl⟩
    | ok p => obtain ⟨url, pid⟩ := p; exact ⟨rfl, rfl⟩
  | true =>
    cases up with
    | error e => exact ⟨rfl, rfl⟩
    | ok p => obtain ⟨url, pid⟩ := p; exact ⟨rfl, rfl⟩

/-- C6: over every job lifetime — dispatcher `queued` write followed by the
worker's writes, for every combination of transcode and upload outcomes — the
sequence of `status` values written to the store is strictly increasing in the
ordering `queued < processing < uploading < completed|failed`; in particular
no write moves the status backwards and `queued` is never revisited. -/
theorem C6_status_forward_only (job_id fn : String) (o : WorkerOracle) :
    (statusTrace (jobLifecycleOps job_id fn o)).Pairwise
      (fun a b => statusRank a < statusRank b) := by
  rcases o with ⟨ck, up⟩
  cases ck with
  | false =>
    have h : statusTrace (jobLifecycleOps job_id fn ⟨false, up⟩) =
        ["queued", "processing", "failed"] := rfl
    rw [h]; decide
  | true =>
    cases up with
    | error e =>
      have h : statusTrace (jobLifecycleOps job_id fn ⟨true, Except.error e⟩) =
          ["queued", "processing", "uploading", "failed"] := rfl
      rw [h]; decide
    | ok p =>
      obtain ⟨url, pid⟩ := p
      have h : statusTrace (jobLifecycleOps job_id fn ⟨true, Except.ok (url, pid)⟩) =
          ["queued", "processing", "uploading", "completed"] := rfl
      rw [h]; decide

def anyImageOracle : ImageOracle := ⟨none, Except.error "unused", "job-7"⟩

/-- C7, counterexample: a present file whose content is empty (zero bytes)
with the allowed video name `a.mp4` is not rejected with 400 — no signature
matches the empty content, the extension is trusted, and the request is
admitted: HTTP 202, a `queued` job record is created and a work item is
enqueued. -/
theorem C7_empty_video_accepted_ce :
    (upload_and_compress anyImageOracle ⟨some ("a.mp4", [])⟩).response.code = 202 ∧
    (upload_and_compress anyImageOracle ⟨some ("a.mp4", [])⟩).jobOps =
      [queuedJobOp "job-7" "a.mp4"] ∧
    (upload_and_compress anyImageOracle ⟨some ("a.mp4", [])⟩).queued.isSome = true :=
  ⟨rfl, rfl, rfl⟩

/-- C7, amended: a Submit request with the `file` part missing, or with an
empty selected filename, receives a 400 validation error with no job record
created, no item enqueued, no upload performed and no temporary artifact
saved; but a present file with empty byte content is not a validation error —
it proceeds to processing (202 and a job record for a video name, a 500
processing error for an image name). -/
theorem C7_missing_or_blank_name_400 (o : ImageOracle) (content : List Nat) :
    (upload_and_compress o ⟨none⟩ =
      noEffects ⟨400, "No file part in the request"⟩) ∧
    (upload_and_compress o ⟨some ("", content)⟩ =
      noEffects ⟨400, "No selected file"⟩) :=
  ⟨rfl, rfl⟩

/-- C8: if at subscribe time the sampled job record already carries a
terminal status (`completed` or `failed`), the stream emits exactly one frame
— that record — and closes: no not-found frame, no timeout frame, no further
samples are emitted. -/
theorem C8_terminal_single_frame (sample : Nat → Option (List (String × String)))
    (r : List (String × String)) (h0 : sample 0 = some r)
    (hterm : r.lookup "status" = some "completed" ∨
      r.lookup "status" = some "failed") :
    stream_job_progress sample = [SSEFrame.data r] := by
  show streamGenAux sample none 0 (599 + 1) = [SSEFrame.data r]
  rw [streamGenAux_succ, h0]
  rcases hterm with h | h <;> simp [h]

def terminalSample : Nat → Option (List (String × String)) :=
  fun _ => some [("status", "completed"), ("cloudinary_url", "u")]

/-- C8 witness: a concrete already-completed job yields exactly one frame. -/
theorem C8_terminal_single_frame_witness :
    stream_job_progress terminalSample =
      [SSEFrame.data [("status", "completed"), ("cloudinary_url", "u")]] :=
  C8_terminal_single_frame terminalSample
    [("status", "completed"), ("cloudinary_url", "u")] rfl (Or.inl rfl)
